import Mathlib

/-!
Shallow embedding of the laptop-scraper dashboard (`src/app.py`).

The extraction core (`scrape_laptops`) is modelled as a total function from
the outcome of the HTTP fetch (either a transport error message or the list
of located product cards) to the produced ResultSet together with the error
side channel (`st.error`).  Python string and number primitives used by the
code (`str.strip`, `str.replace`, `str.split`, `int(...)`, `float(...)`)
are embedded as executable functions on `List Char` / `String`, and the
pandas operations used by the dashboard (`mean`, `sum`, boolean-mask
filtering, `nlargest`, column assignment) are embedded over lists of
records.  Machine floats only ever hold exact decimal/small-integer values
here, so prices and scores are represented by `ℚ`, with the IEEE special
values `inf`/`-inf`/`NaN` that pandas produces on division by zero
represented explicitly by the `VScore` type.
-/

/-- Whitespace class used by Python `str.strip` / `str.split` for the
ASCII range (space, tab, newline, carriage return, vertical tab, form
feed).  Unicode whitespace beyond ASCII is not modelled; the scraped
strings in this program are ASCII. -/
def pySpace (c : Char) : Bool :=
  c = ' ' || c = '\t' || c = '\n' || c = '\r' || c = '\x0b' || c = '\x0c'

/-- Python `str.strip()` on the character list: drop leading and trailing
whitespace. -/
def pyStripL (l : List Char) : List Char :=
  ((l.dropWhile pySpace).reverse.dropWhile pySpace).reverse

/-- Python `str.strip()`. -/
def pyStrip (s : String) : String :=
  ⟨pyStripL s.toList⟩

/-- Python `s.replace(c, '')` for a one-character pattern `c`: removes
every occurrence of the character. -/
def removeChar (c : Char) (s : String) : String :=
  ⟨s.toList.filter (fun d => d ≠ c)⟩

/-- Value of a run of decimal digits. -/
def digitsToNat (l : List Char) : ℕ :=
  l.foldl (fun n c => 10 * n + (c.toNat - 48)) 0

/-- Python `int(s)` on a string: strip whitespace, optional sign, then a
nonempty run of decimal digits; `none` models the `ValueError` raised on
any other shape.  (Underscore digit separators and non-ASCII digits, which
CPython also accepts, are not modelled; they do not occur in this
program's data.) -/
def pyInt (s : String) : Option ℤ :=
  match pyStripL s.toList with
  | [] => none
  | c :: cs =>
    let p : ℤ × List Char :=
      if c = '-' then (-1, cs) else if c = '+' then (1, cs) else (1, c :: cs)
    if p.2 ≠ [] ∧ p.2.all Char.isDigit then some (p.1 * (digitsToNat p.2 : ℤ))
    else none

/-- Python `float(s)` on a plain decimal literal: strip whitespace,
optional sign, digits with an optional fractional part, at least one digit
overall; `none` models the `ValueError` raised otherwise.  (Exponent
notation and `inf`/`nan` literals, which CPython also accepts, are not
modelled; price strings never use them.) -/
def pyFloat (s : String) : Option ℚ :=
  match pyStripL s.toList with
  | [] => none
  | c :: cs =>
    let neg : Bool := c = '-'
    let ds := if c = '-' ∨ c = '+' then cs else c :: cs
    let ip := ds.takeWhile Char.isDigit
    let mag : Option ℚ :=
      match ds.dropWhile Char.isDigit with
      | [] => if ip = [] then none else some ((digitsToNat ip : ℕ) : ℚ)
      | '.' :: fp =>
        if fp.all Char.isDigit ∧ (ip ≠ [] ∨ fp ≠ []) then
          some (((digitsToNat ip : ℕ) : ℚ) + ((digitsToNat fp : ℕ) : ℚ) / (10 : ℚ) ^ fp.length)
        else none
      | _ => none
    mag.map (fun m => if neg then -m else m)

/-- Python `s.split()[0]`: the first maximal run of non-whitespace
characters; `none` models the `IndexError` raised when `split()` returns
an empty list (whitespace-only string). -/
def firstTok? (l : List Char) : Option (List Char) :=
  match l.dropWhile pySpace with
  | [] => none
  | c :: cs => some ((c :: cs).takeWhile (fun d => !pySpace d))

/-- The `<a class="title">` element of a card; `title` is its (optional)
`title` attribute, read by `name_tag.get('title', '')`. -/
structure NameTag where
  title : Option String
deriving DecidableEq

/-- One `div.card-body` block as the extraction loop sees it: each field
is the sub-element lookup result that the corresponding `product.find`
call returns (`none` = element absent).  `priceText`, `descText` and
`reviewsText` are the raw `.text` of the found element; `ratingAttr` is
the raw string value of the `data-rating` attribute. -/
structure Card where
  nameTag : Option NameTag
  priceText : Option String
  descText : Option String
  ratingAttr : Option String
  reviewsText : Option String
deriving DecidableEq

/-- One row of the ResultSet, with the five columns built by
`scrape_laptops`. -/
structure ProductRecord where
  Name : String
  Price : ℚ
  Description : String
  Rating : ℤ
  Reviews : ℤ
deriving DecidableEq

/-- `name = name_tag.get('title', '') if name_tag else 'N/A'` — never
raises. -/
def extractName (c : Card) : String :=
  match c.nameTag with
  | some t => t.title.getD ""
  | none => "N/A"

/-- `price_text = price_tag.text.strip() if price_tag else '$0'` followed
by `float(price_text.replace('$', '').replace(',', ''))`; `none` when the
`float` call raises. -/
def extractPrice (c : Card) : Option ℚ :=
  let price_text := match c.priceText with
    | some s => pyStrip s
    | none => "$0"
  pyFloat (removeChar ',' (removeChar '$' price_text))

/-- `description = desc_tag.text.strip() if desc_tag else 'N/A'` — never
raises. -/
def extractDescription (c : Card) : String :=
  match c.descText with
  | some s => pyStrip s
  | none => "N/A"

/-- `rating = int(rating_tag['data-rating']) if rating_tag else 0`;
`none` when the `int` call raises. -/
def extractRating (c : Card) : Option ℤ :=
  match c.ratingAttr with
  | some s => pyInt s
  | none => some 0

/-- `reviews = reviews_tag.text.strip() if reviews_tag else '0 reviews'`
followed by `review_count = int(reviews.split()[0]) if reviews else 0`;
`none` when the indexing or the `int` call raises. -/
def extractReviewCount (c : Card) : Option ℤ :=
  let reviews : String := match c.reviewsText with
    | some s => pyStrip s
    | none => "0 reviews"
  if reviews = "" then some 0
  else (firstTok? reviews.toList).bind (fun t => pyInt ⟨t⟩)

/-- The body of the per-card `try`/`except` block: any exception raised
while extracting any field of the card (`none` from a fallible field)
skips the whole card; otherwise the five-field record is appended. -/
def extractCard (c : Card) : Option ProductRecord :=
  match extractPrice c, extractRating c, extractReviewCount c with
  | some price, some rating, some review_count =>
    some
      { Name := extractName c
        Price := price
        Description := extractDescription c
        Rating := rating
        Reviews := review_count }
  | _, _, _ => none

/-- `scrape_laptops`, as a function of the fetch outcome: `Except.error e`
models any exception escaping the top-level `try` (non-2xx status raised
by `raise_for_status`, timeout, connection failure, parse failure), and
`Except.ok cards` models a successful fetch whose parsed page contains
`cards` (the `div.card-body` elements, in document order).  The result is
the returned DataFrame's rows paired with the `st.error` side channel
(`none` = no error shown). -/
def scrape_laptops (fetch : Except String (List Card)) :
    List ProductRecord × Option String :=
  match fetch with
  | .ok cards => (cards.filterMap extractCard, none)
  | .error e => ([], some ("Error scraping data: " ++ e))

/-- The four figures shown by `display_metrics`.  `avg_price` and
`avg_rating` are `Option ℚ`: `none` models the `NaN` that pandas `mean`
returns on an empty column. -/
structure Metrics where
  count : ℕ
  avg_price : Option ℚ
  avg_rating : Option ℚ
  total_reviews : ℤ
deriving DecidableEq

/-- pandas `Series.mean`: `NaN` (here `none`) on an empty series,
otherwise the arithmetic mean. -/
def pandasMean (l : List ℚ) : Option ℚ :=
  if l.isEmpty then none else some (l.sum / l.length)

/-- `display_metrics`: `len(df)`, `df['Price'].mean()`,
`df['Rating'].mean()` and `df['Reviews'].sum()` (pandas `sum` of an empty
series is `0`). -/
def display_metrics (df : List ProductRecord) : Metrics :=
  { count := df.length
    avg_price := pandasMean (df.map (·.Price))
    avg_rating := pandasMean (df.map (fun r => (r.Rating : ℚ)))
    total_reviews := (df.map (·.Reviews)).sum }

/-- The sidebar filter (the boolean-mask selection building
`filtered_df`): keep rows with `Price` in `[lo, hi]` (both ends
inclusive) and `Rating` in the multiselect list `S`, preserving row
order. -/
def applyFilters (df : List ProductRecord) (lo hi : ℚ) (S : List ℤ) :
    List ProductRecord :=
  df.filter (fun r => decide (lo ≤ r.Price ∧ r.Price ≤ hi ∧ r.Rating ∈ S))

/-- pandas `DataFrame.nlargest(n, column)` with the default
`keep='first'`: rows sorted by the column in descending order, rows with
equal column values kept in their original relative order, truncated to
the first `n` rows.  `key` reads the numeric column from a row. -/
def nlargest (key : ProductRecord → ℚ) (n : ℕ) (df : List ProductRecord) :
    List ProductRecord :=
  (df.insertionSort (fun a b => key b ≤ key a)).take n

/-- An IEEE-float value score: `Rating / (Price / 100)` can be a finite
value, `±inf` (division of a nonzero rating by price `0`) or `NaN`
(`0 / 0`). -/
inductive VScore where
  | nan : VScore
  | neginf : VScore
  | fin (q : ℚ) : VScore
  | inf : VScore
deriving DecidableEq

/-- `df['Rating'] / (df['Price'] / 100)` for one row, with IEEE
division-by-zero semantics. -/
def valueScore (r : ProductRecord) : VScore :=
  if r.Price = 0 then
    if 0 < r.Rating then VScore.inf
    else if r.Rating < 0 then VScore.neginf
    else VScore.nan
  else VScore.fin ((r.Rating : ℚ) / (r.Price / 100))

/-- Comparison used when sorting the `Value_Score` column descending:
`-inf < finite (by value) < inf`.  `NaN` rows never reach the sort
(pandas `nlargest` drops them); the value on `nan` is arbitrary. -/
def VScore.leB : VScore → VScore → Bool
  | VScore.nan, _ => true
  | _, VScore.nan => false
  | VScore.neginf, _ => true
  | _, VScore.neginf => false
  | VScore.fin a, VScore.fin b => a ≤ b
  | VScore.fin _, VScore.inf => true
  | VScore.inf, VScore.fin _ => false
  | VScore.inf, VScore.inf => true

/-- `filtered_df.nlargest(n, 'Value_Score')`: pandas `nlargest` first
drops `NaN` rows, then takes the first `n` rows of the stable descending
sort by score. -/
def nlargestValueScore (n : ℕ) (rows : List ProductRecord) :
    List ProductRecord :=
  ((rows.filter (fun r => decide (valueScore r ≠ VScore.nan))).insertionSort
    (fun a b => VScore.leB (valueScore b) (valueScore a) = true)).take n

/-- A pandas DataFrame as the dashboard holds it: the rows with the five
scraped columns, plus the `Value_Score` column once (and only once) it
has been assigned (`none` = column absent). -/
structure DataFrame where
  rows : List ProductRecord
  valueScoreCol : Option (List VScore)
deriving DecidableEq

/-- The in-place column assignment
`filtered_df['Value_Score'] = filtered_df['Rating'] / (filtered_df['Price'] / 100)`:
the state of `filtered_df` after the statement. -/
def addValueScoreColumn (df : DataFrame) : DataFrame :=
  { df with valueScoreCol := some (df.rows.map valueScore) }

/-! ### Sample data -/

/-- A complete, well-formed card: price text `"$199.99"`, rating
attribute `"4"`, reviews text `"12 reviews"`. -/
def cardA : Card :=
  { nameTag := some ⟨some "Asus VivoBook"⟩
    priceText := some "$199.99"
    descText := some "15.6 inch laptop, 8GB RAM"
    ratingAttr := some "4"
    reviewsText := some "12 reviews" }

/-- Identical to `cardA` but with the description element missing. -/
def cardB : Card :=
  { cardA with descText := none }

/-- Identical to `cardA` but with the unparsable price text `"N/A"`. -/
def cardC : Card :=
  { cardA with priceText := some "N/A" }

/-- The record extracted from `cardA`. -/
def recA : ProductRecord :=
  { Name := "Asus VivoBook"
    Price := 19999 / 100
    Description := "15.6 inch laptop, 8GB RAM"
    Rating := 4
    Reviews := 12 }

/-- The record extracted from `cardB`: description falls back to the
sentinel. -/
def recB : ProductRecord :=
  { recA with Description := "N/A" }

/-! ### Claim theorems -/

/-- Claim C1: extraction over a page with exactly the three cards
(a) complete and well-formed with price text `"$199.99"`, rating
attribute `4`, reviews text `"12 reviews"`, (b) identical but missing the
description sub-element, (c) identical but with unparsable price text
`"N/A"`, yields a two-record ResultSet in document order: record (a) with
`price = 199.99`, `rating = 4`, `review_count = 12`; record (b) with
description equal to the sentinel `"N/A"` and all other fields intact;
record (c) absent entirely, with no partial record. -/
theorem scrape_concrete_three_cards :
    scrape_laptops (Except.ok [cardA, cardB, cardC]) = ([recA, recB], none) := by
  have hp0 : extractPrice cardA =
      some (((199 : ℕ) : ℚ) + ((99 : ℕ) : ℚ) / (10 : ℚ) ^ (2 : ℕ)) := rfl
  have hp : extractPrice cardA = some ((19999 : ℚ) / 100) := by
    rw [hp0]; push_cast; norm_num
  have hpB0 : extractPrice cardB =
      some (((199 : ℕ) : ℚ) + ((99 : ℕ) : ℚ) / (10 : ℚ) ^ (2 : ℕ)) := rfl
  have hpB : extractPrice cardB = some ((19999 : ℚ) / 100) := by
    rw [hpB0]; push_cast; norm_num
  have hA : extractCard cardA = some recA := by
    simp only [extractCard, hp]; rfl
  have hB : extractCard cardB = some recB := by
    simp only [extractCard, hpB]; rfl
  have hC : extractCard cardC = none := by decide
  simp only [scrape_laptops, List.filterMap_cons, hA, hB, hC, List.filterMap_nil]

/-- Claim C2: for every fetch outcome, `scrape_laptops` returns normally
(it is a total function): on any top-level failure — non-2xx status,
timeout, connection failure, page parse failure, all modelled by the
`Except.error` outcome — it returns an empty ResultSet, and the failure
is reported only on the `st.error` side channel, which is silent exactly
on the successful outcomes. -/
theorem scrape_laptops_never_raises (fetch : Except String (List Card)) :
    (∀ e, fetch = Except.error e →
      scrape_laptops fetch = ([], some ("Error scraping data: " ++ e))) ∧
    ((scrape_laptops fetch).2 = none ↔ fetch.isOk = true) := by
  cases fetch <;> simp [scrape_laptops, Except.isOk, Except.toBool]

/-- Witness for claim C2 at a concrete transport failure. -/
theorem scrape_laptops_never_raises_witness :
    scrape_laptops (Except.error "404 Client Error") =
      ([], some ("Error scraping data: " ++ "404 Client Error")) :=
  (scrape_laptops_never_raises (Except.error "404 Client Error")).1
    "404 Client Error" rfl

/-- Claim C4 counterexample: on the empty ResultSet, `display_metrics`
reports `total_reviews` as the number `0` (the pandas sum of an empty
column), not as an undefined/NaN value — zero is silently substituted for
the reviews total, while the two averages are indeed NaN. -/
theorem display_metrics_empty_total_reviews_zero :
    (display_metrics []).total_reviews = 0 ∧
    (display_metrics []).avg_price = none ∧
    (display_metrics []).avg_rating = none := by
  decide

/-- Claim C4 (amended): on the empty ResultSet, `display_metrics` reports
`avg_price` and `avg_rating` as NaN — and does so exactly when the set is
empty — while `count` is `0` and `total_reviews` is the pandas sum of the
empty column, which is the number `0`, not NaN. -/
theorem display_metrics_empty_behavior (df : List ProductRecord) :
    ((display_metrics df).avg_price = none ↔ df = []) ∧
    ((display_metrics df).avg_rating = none ↔ df = []) ∧
    (df = [] → display_metrics df =
      { count := 0, avg_price := none, avg_rating := none, total_reviews := 0 }) := by
  refine ⟨?_, ?_, fun h => by subst h; rfl⟩ <;>
    simp [display_metrics, pandasMean, List.isEmpty_iff, List.map_eq_nil_iff]

/-- Witness for claim C4 at the concrete empty ResultSet. -/
theorem display_metrics_empty_behavior_witness :
    display_metrics [] =
      { count := 0, avg_price := none, avg_rating := none, total_reviews := 0 } :=
  (display_metrics_empty_behavior []).2.2 rfl

/-- Claim C6: the sidebar filter keeps exactly the records whose price
lies in the inclusive range `[lo, hi]` and whose rating is in the
selected set `S` — membership, multiplicity and original order are all
characterized: the result is an order-preserving sublist of the input,
a record is in it iff it is in the input and satisfies both conditions,
and each record keeps its full multiplicity iff it satisfies them. -/
theorem applyFilters_spec (df : List ProductRecord) (lo hi : ℚ) (S : List ℤ) :
    (applyFilters df lo hi S).Sublist df ∧
    (∀ r, r ∈ applyFilters df lo hi S ↔
      r ∈ df ∧ lo ≤ r.Price ∧ r.Price ≤ hi ∧ r.Rating ∈ S) ∧
    (∀ r, (applyFilters df lo hi S).count r =
      if lo ≤ r.Price ∧ r.Price ≤ hi ∧ r.Rating ∈ S then df.count r else 0) := by
  refine ⟨List.filter_sublist df, fun r => ?_, fun r => ?_⟩
  · simp [applyFilters, List.mem_filter]
  · by_cases h : lo ≤ r.Price ∧ r.Price ≤ hi ∧ r.Rating ∈ S
    · rw [if_pos h]
      exact List.count_filter (by simpa using h)
    · rw [if_neg h]
      refine List.count_eq_zero.mpr fun hmem => ?_
      exact h (by simpa using (List.mem_filter.mp hmem).2)

/-- Witness for claim C6 at a concrete ResultSet. -/
theorem applyFilters_spec_witness :
    (applyFilters [recA, recB] 0 300 [4]).Sublist [recA, recB] :=
  (applyFilters_spec [recA, recB] 0 300 [4]).1

/-- Claim C7: filtering is monotone in its parameters — widening the
price interval and the allowed rating set can only enlarge the filtered
result. -/
theorem applyFilters_monotone (df : List ProductRecord) (lo hi lo' hi' : ℚ)
    (S S' : List ℤ) (hlo : lo' ≤ lo) (hhi : hi ≤ hi')
    (hS : ∀ x ∈ S, x ∈ S') :
    (applyFilters df lo hi S).length ≤ (applyFilters df lo' hi' S').length := by
  unfold applyFilters
  rw [← List.countP_eq_length_filter, ← List.countP_eq_length_filter]
  refine List.countP_mono_left fun r _ h => ?_
  simp only [decide_eq_true_eq] at h ⊢
  exact ⟨le_trans hlo h.1, le_trans h.2.1 hhi, hS _ h.2.2⟩

/-- Witness for claim C7 at a concrete ResultSet and concrete widened
parameters. -/
theorem applyFilters_monotone_witness :
    (applyFilters [recA, recB] 100 150 [4]).length ≤
      (applyFilters [recA, recB] 50 300 [4, 5]).length :=
  applyFilters_monotone [recA, recB] 100 150 50 300 [4] [4, 5]
    (by norm_num) (by norm_num) (by decide)

/-- Helper: a successfully extracted record carries exactly the
per-field extraction results of its card. -/
theorem extractCard_fields {c : Card} {rec : ProductRecord}
    (h : extractCard c = some rec) :
    rec.Name = extractName c ∧ rec.Description = extractDescription c ∧
    extractPrice c = some rec.Price ∧ extractRating c = some rec.Rating ∧
    extractReviewCount c = some rec.Reviews := by
  unfold extractCard at h
  cases hp : extractPrice c <;> rw [hp] at h
  · simp at h
  · cases hr : extractRating c <;> rw [hr] at h
    · simp at h
    · cases hv : extractReviewCount c <;> rw [hv] at h
      · simp at h
      · simp only [Option.some.injEq] at h
        subst h
        exact ⟨rfl, rfl, rfl, rfl, rfl⟩

/-- Helper: a card whose review-count extraction raises is dropped
entirely. -/
theorem extractCard_none_of_reviewCount {c : Card}
    (h : extractReviewCount c = none) : extractCard c = none := by
  unfold extractCard
  rw [h]
  cases extractPrice c <;> cases extractRating c <;> rfl

/-- Claim C8: when the name sub-element is absent, the extracted name is
exactly the sentinel `"N/A"` (a genuine string, never a null value), and
any record the card yields carries that sentinel. -/
theorem extract_missing_name_sentinel (c : Card) (h : c.nameTag = none) :
    extractName c = "N/A" ∧
    ∀ rec, extractCard c = some rec → rec.Name = "N/A" := by
  have hn : extractName c = "N/A" := by simp [extractName, h]
  exact ⟨hn, fun rec hrec => (extractCard_fields hrec).1.trans hn⟩

/-- A card with no name element that otherwise extracts successfully. -/
def cardNoName : Card :=
  { nameTag := none
    priceText := some "$25"
    descText := none
    ratingAttr := some "5"
    reviewsText := some "3 reviews" }

/-- Witness for claim C8 at a concrete card with the name element
missing. -/
theorem extract_missing_name_sentinel_witness :
    extractName cardNoName = "N/A" ∧
    ({ Name := "N/A", Price := ((25 : ℕ) : ℚ), Description := "N/A",
       Rating := 5, Reviews := 3 } : ProductRecord).Name = "N/A" :=
  ⟨(extract_missing_name_sentinel cardNoName rfl).1,
   (extract_missing_name_sentinel cardNoName rfl).2 _ rfl⟩

/-- Claim C10: when the review-count element is present and its stripped
text is nonempty but its first whitespace-separated token is not an
integer literal, the whole card is dropped (no record with a defaulted
count); the `0` default is used only when the element is absent or its
text strips to empty. -/
theorem review_count_policy (c : Card) :
    (∀ s, c.reviewsText = some s → pyStrip s ≠ "" →
      (∀ t, firstTok? (pyStrip s).toList = some t → pyInt ⟨t⟩ = none) →
      extractCard c = none) ∧
    ((c.reviewsText = none ∨ ∃ s, c.reviewsText = some s ∧ pyStrip s = "") →
      ∀ rec, extractCard c = some rec → rec.Reviews = 0) := by
  constructor
  · intro s hs hne htok
    refine extractCard_none_of_reviewCount ?_
    unfold extractReviewCount
    rw [hs]
    rw [if_neg hne]
    cases ht : firstTok? (pyStrip s).toList
    · rfl
    · simp [htok _ ht]
  · intro hcase rec hrec
    have h0 : extractReviewCount c = some 0 := by
      rcases hcase with h | ⟨s, hs, hemp⟩
      · unfold extractReviewCount
        rw [h]
        rfl
      · unfold extractReviewCount
        rw [hs]
        simp [hemp]
    have hv := (extractCard_fields hrec).2.2.2.2
    rw [h0] at hv
    exact (Option.some.inj hv).symm

/-- A card whose review-count text `"No reviews"` has a non-numeric
first token. -/
def cardBadReviews : Card :=
  { cardA with reviewsText := some "No reviews" }

/-- A card with every sub-element absent: all defaults apply and the
review count defaults to `0`. -/
def cardAllMissing : Card :=
  { nameTag := none
    priceText := none
    descText := none
    ratingAttr := none
    reviewsText := none }

/-- Witness for claim C10: the concrete card with reviews text
`"No reviews"` is dropped entirely, and the concrete card with no
review element yields the `0` default. -/
theorem review_count_policy_witness :
    extractCard cardBadReviews = none ∧
    ({ Name := "N/A", Price := ((0 : ℕ) : ℚ), Description := "N/A",
       Rating := 0, Reviews := 0 } : ProductRecord).Reviews = 0 := by
  constructor
  · refine (review_count_policy cardBadReviews).1 "No reviews" rfl
      (by decide) ?_
    intro t ht
    have he : firstTok? (pyStrip "No reviews").toList =
        some (['N', 'o'] : List Char) := rfl
    rw [he] at ht
    cases ht
    decide
  · exact (review_count_policy cardAllMissing).2 (Or.inl rfl) _ rfl

/-- Claim C5: for every ResultSet, numeric column and `n`,
`nlargest key n df` is the `n` records with the largest key — its length
is `min n |df|`, it is sorted descending by key, it can be completed by a
remainder (a permutation decomposition of `df`) every element of which
has key at most that of every selected record, records of equal key
appear in their original relative order (a sublist of the input's
equal-key subsequence), and when `n ≥ |df|` it is a permutation of all of
`df` (sorted, by the second conjunct). -/
theorem nlargest_spec (key : ProductRecord → ℚ) (n : ℕ)
    (df : List ProductRecord) :
    (nlargest key n df).length = min n df.length ∧
    List.Sorted (fun a b => key b ≤ key a) (nlargest key n df) ∧
    (∃ rest, (nlargest key n df ++ rest).Perm df ∧
      ∀ y ∈ rest, ∀ x ∈ nlargest key n df, key y ≤ key x) ∧
    (∀ v : ℚ, ((nlargest key n df).filter (fun r => decide (key r = v))).Sublist
      (df.filter (fun r => decide (key r = v)))) ∧
    (df.length ≤ n → (nlargest key n df).Perm df) := by
  haveI : IsTotal ProductRecord (fun a b => key b ≤ key a) :=
    ⟨fun a b => le_total (key b) (key a)⟩
  haveI : IsTrans ProductRecord (fun a b => key b ≤ key a) :=
    ⟨fun a b c hab hbc => le_trans hbc hab⟩
  have hsorted : List.Sorted (fun a b => key b ≤ key a)
      (df.insertionSort fun a b => key b ≤ key a) :=
    List.sorted_insertionSort _ df
  have hperm : (df.insertionSort fun a b => key b ≤ key a).Perm df :=
    List.perm_insertionSort _ df
  refine ⟨?_, ?_, ?_, ?_, ?_⟩
  · rw [nlargest, List.length_take, List.length_insertionSort]
  · exact List.Pairwise.sublist (List.take_sublist n _) hsorted
  · refine ⟨(df.insertionSort fun a b => key b ≤ key a).drop n, ?_, ?_⟩
    · rw [nlargest, List.take_append_drop]
      exact hperm
    · intro y hy x hx
      exact hsorted.rel_of_mem_take_of_mem_drop hx hy
  · intro v
    have hall : ∀ x ∈ df.filter (fun r => decide (key r = v)), key x = v :=
      fun x hx => of_decide_eq_true (List.mem_filter.mp hx).2
    have hpw : (df.filter (fun r => decide (key r = v))).Pairwise
        (fun a b => key b ≤ key a) :=
      List.pairwise_of_forall_mem_list fun a ha b hb =>
        le_of_eq ((hall b hb).trans (hall a ha).symm)
    have hsub : (df.filter (fun r => decide (key r = v))).Sublist
        (df.insertionSort fun a b => key b ≤ key a) :=
      List.sublist_insertionSort hpw (List.filter_sublist df)
    have hpermf : ((df.insertionSort fun a b => key b ≤ key a).filter
        (fun r => decide (key r = v))).Perm
        (df.filter (fun r => decide (key r = v))) :=
      hperm.filter _
    have hsub2 : (df.filter (fun r => decide (key r = v))).Sublist
        ((df.insertionSort fun a b => key b ≤ key a).filter
          (fun r => decide (key r = v))) := by
      have h1 := List.Sublist.filter (fun r => decide (key r = v)) hsub
      rwa [List.filter_eq_self.mpr (fun a ha => (List.mem_filter.mp ha).2)] at h1
    have heq : (df.insertionSort fun a b => key b ≤ key a).filter
        (fun r => decide (key r = v)) =
        df.filter (fun r => decide (key r = v)) :=
      (hsub2.eq_of_length hpermf.length_eq.symm).symm
    calc ((nlargest key n df).filter (fun r => decide (key r = v))).Sublist
          ((df.insertionSort fun a b => key b ≤ key a).filter
            (fun r => decide (key r = v))) :=
        List.Sublist.filter _ (List.take_sublist n _)
      _ = df.filter (fun r => decide (key r = v)) := heq
  · intro hle
    rw [nlargest, List.take_of_length_le
      (by rw [List.length_insertionSort]; exact hle)]
    exact hperm

/-- Witness for claim C5 at a concrete ResultSet with `n ≥ |R|`. -/
theorem nlargest_spec_witness :
    (nlargest (fun r => (r.Rating : ℚ)) 5 [recA, recB]).Perm [recA, recB] ∧
    (nlargest (fun r => (r.Rating : ℚ)) 5 [recA, recB]).length = min 5 2 :=
  ⟨(nlargest_spec (fun r => (r.Rating : ℚ)) 5 [recA, recB]).2.2.2.2 (by decide),
   (nlargest_spec (fun r => (r.Rating : ℚ)) 5 [recA, recB]).1⟩

/-- A normally priced record: price `100`, rating `4`, value score `4`. -/
def laptopRec : ProductRecord :=
  { Name := "Laptop"
    Price := 100
    Description := "standard"
    Rating := 4
    Reviews := 20 }

/-- A zero-priced record with positive rating: its value score divides by
zero. -/
def freebieRec : ProductRecord :=
  { Name := "Freebie"
    Price := 0
    Description := "zero-priced"
    Rating := 5
    Reviews := 10 }

/-- Claim C3 counterexample: a record with price `0` and positive rating
is neither flagged nor excluded — its value score is `+inf` and it enters
the 10-largest best-value ranking, sorted to the very top. -/
theorem valueScore_zero_price_counterexample :
    freebieRec.Price = 0 ∧ valueScore freebieRec = VScore.inf ∧
    nlargestValueScore 10 [laptopRec, freebieRec] = [freebieRec, laptopRec] := by
  decide

/-- Claim C3 (amended): the code applies no explicit zero-price policy to
the value score: for a record with price `0` the score is `+inf` when the
rating is positive (`NaN` when zero, `-inf` when negative), and a
zero-priced positively-rated record always enters the best-value ranking
when the candidate list fits the requested capacity — only `NaN` rows
disappear, dropped by pandas `nlargest` itself rather than by any policy
of this code. -/
theorem valueScore_zero_price (r : ProductRecord) (h : r.Price = 0) :
    (0 < r.Rating → valueScore r = VScore.inf) ∧
    (r.Rating = 0 → valueScore r = VScore.nan) ∧
    (r.Rating < 0 → valueScore r = VScore.neginf) ∧
    (0 < r.Rating → ∀ rows n, r ∈ rows → rows.length ≤ n →
      r ∈ nlargestValueScore n rows) := by
  have hs : ∀ _h : 0 < r.Rating, valueScore r = VScore.inf := fun hr => by
    simp [valueScore, h, hr]
  refine ⟨hs, ?_, ?_, ?_⟩
  · intro hr
    simp [valueScore, h, hr]
  · intro hr
    have h1 : ¬0 < r.Rating := by omega
    simp [valueScore, h, h1, hr]
  · intro hr rows n hmem hlen
    have hnn : valueScore r ≠ VScore.nan := by
      rw [hs hr]
      simp
    unfold nlargestValueScore
    rw [List.take_of_length_le
      (by rw [List.length_insertionSort]
          exact le_trans (List.length_filter_le _ _) hlen)]
    rw [List.mem_insertionSort]
    exact List.mem_filter.mpr ⟨hmem, by simp [hnn]⟩

/-- Witness for claim C3 at the concrete zero-priced record. -/
theorem valueScore_zero_price_witness :
    valueScore freebieRec = VScore.inf ∧
    freebieRec ∈ nlargestValueScore 2 [laptopRec, freebieRec] :=
  ⟨(valueScore_zero_price freebieRec rfl).1 (by decide),
   (valueScore_zero_price freebieRec rfl).2.2.2 (by decide)
     [laptopRec, freebieRec] 2 (by decide) (by decide)⟩

/-- A filtered DataFrame before the best-value tab runs: no
`Value_Score` column. -/
def sampleDF : DataFrame :=
  { rows := [laptopRec, freebieRec]
    valueScoreCol := none }

/-- Claim C9 counterexample: the value-score computation is not
read-only — the column assignment on line 316 changes the filtered
DataFrame, adding a `Value_Score` column it did not have. -/
theorem addValueScoreColumn_mutates :
    addValueScoreColumn sampleDF ≠ sampleDF ∧
    sampleDF.valueScoreCol = none ∧
    (addValueScoreColumn sampleDF).valueScoreCol ≠ none := by
  decide

/-- Claim C9 (amended): the aggregator computations other than the
value-score step are pure functions of their input rows, and even the
value-score step leaves the five original columns of every record
unchanged — but it does add a `Value_Score` column to the filtered
DataFrame in place, so a DataFrame without that column is genuinely
changed by it. -/
theorem addValueScoreColumn_frame (df : DataFrame)
    (h : df.valueScoreCol = none) :
    (addValueScoreColumn df).rows = df.rows ∧
    (addValueScoreColumn df).valueScoreCol = some (df.rows.map valueScore) ∧
    addValueScoreColumn df ≠ df := by
  refine ⟨rfl, rfl, fun he => ?_⟩
  have h2 := congrArg DataFrame.valueScoreCol he
  rw [h] at h2
  simp [addValueScoreColumn] at h2

/-- Witness for claim C9 at the concrete filtered DataFrame. -/
theorem addValueScoreColumn_frame_witness :
    (addValueScoreColumn sampleDF).rows = sampleDF.rows ∧
    addValueScoreColumn sampleDF ≠ sampleDF :=
  ⟨(addValueScoreColumn_frame sampleDF rfl).1,
   (addValueScoreColumn_frame sampleDF rfl).2.2⟩
